import Mathlib

/-!
Shallow embedding of the FastAPI "Product" CRUD service
(source files `main.py`, `models.py`, `db_models.py`, `config.py`).

The relational table `product` is modelled as an ordered list of stored
rows (the storage engine returns rows in insertion order by default).
Each request handler becomes a pure function from the table state to a
pair of the HTTP-level result and the table state after the request.
Python integers are modelled by `Int`; the SQL `Float` price column is
modelled exactly by `Rat`, which is faithful here because no handler
performs any arithmetic on prices — they are only stored, copied and
compared.  The `try/except` of the startup seeding routine is modelled
by an explicit boolean failure oracle fed to `init_db`.
-/

namespace models

/-- Wire-format Product schema (`models.py`, class `Product(BaseModel)`):
five required primitive fields, no defaults, no extra validation. -/
structure Product where
  id : Int
  name : String
  description : String
  price : Rat
  quantity : Int
deriving Repr, DecidableEq

end models

namespace db_models

/-- Stored row shape (`db_models.py`, class `Product(Base)`, table
`product`): integer primary key `id` plus four scalar columns. -/
structure Product where
  id : Int
  name : String
  description : String
  price : Rat
  quantity : Int
deriving Repr, DecidableEq

end db_models

/-- State of the `product` table: an ordered list of stored rows. The
primary key constraint is enforced at insert time (see `add_product`),
not by the type. -/
abbrev Table := List db_models.Product

/-- Conversion performed by `db_models.Product(**product.model_dump())`
(`main.py`, lines 97 and 179): every stored column receives the wire
field of the same name. -/
def rowOfProduct (p : models.Product) : db_models.Product :=
  ⟨p.id, p.name, p.description, p.price, p.quantity⟩

/-- Translation of the query
`db.query(db_models.Product).filter(db_models.Product.id == id).first()`:
the first stored row whose `id` column equals the argument, if any. -/
def firstById (t : Table) (id : Int) : Option db_models.Product :=
  match t with
  | [] => none
  | r :: rs => if r.id == id then some r else firstById rs id

/-- The three sample rows added by `init_db` (`main.py`, lines 88-92),
listed in the order the seeding loop adds them. -/
def sample_products : Table :=
  [⟨1, "phone", "samsung", (54000.3 : Rat), 15⟩,
   ⟨4, "Laptop", "samsung", (740000 : Rat), 5⟩,
   ⟨3, "Charger", "Mobile Charger", (52 : Rat), 32⟩]

/-- Outcome of one run of the startup seeding routine: the table after
the run, whether the session was released, and whether an exception
escaped to the caller. -/
structure InitOutcome where
  table : Table
  sessionClosed : Bool
  propagated : Bool
deriving Repr, DecidableEq

/-- Body of the `try:` block of `init_db` (`main.py`, lines 77-99):
count the rows, skip when the table is non-empty, otherwise add the
three sample rows and commit.  `storageFailure` is an oracle for an
arbitrary storage exception raised while talking to the database;
`Except.error` is that exception escaping the `try:` body, in which
case no commit has taken effect. -/
def initDbBody (storageFailure : Bool) (t : Table) : Except String Table :=
  if storageFailure then .error "database error"
  else if t.length > 0 then .ok t
  else .ok (t ++ sample_products)

/-- Startup seeding routine `init_db` (`main.py`, lines 68-106): runs
the body; `except Exception` rolls the transaction back, leaving the
table as it was, and does not re-raise; `finally` closes the session on
every path (the skip path closes it explicitly and then again in
`finally`). -/
def init_db (storageFailure : Bool) (t : Table) : InitOutcome :=
  match initDbBody storageFailure t with
  | .ok t2 => ⟨t2, true, false⟩
  | .error _ => ⟨t, true, false⟩

/-- Table state produced by a clean startup against an empty database. -/
def seededTable : Table := (init_db false []).table

/-- Result of `GET /products/id/...` (`main.py`, lines 128-142): either
the stored row or the literal not-found string. -/
inductive GetByIdResult where
  | found (p : db_models.Product) : GetByIdResult
  | notFound (msg : String) : GetByIdResult
deriving Repr, DecidableEq

/-- Handler `get_all_products` (`main.py`, lines 113-123): returns every
row of the table; the table is not modified. -/
def get_all_products (t : Table) : List db_models.Product × Table :=
  (t, t)

/-- Handler `get_product_by_id` (`main.py`, lines 128-142): returns the
first row matching the id, or the literal not-found string naming the
requested id. -/
def get_product_by_id (id : Int) (t : Table) : GetByIdResult × Table :=
  match firstById t id with
  | some p => (.found p, t)
  | none =>
      (.notFound ("Product with id " ++ toString id ++
        " not found, please verify the id, or try by name."), t)

/-- Result of `POST /products/...` (`main.py`, lines 168-181): either
the echoed wire Product, or the uncaught storage error raised by
`db.commit()` on a primary-key collision; that error propagates as a
generic server error and is never turned into a user-facing string. -/
inductive CreateResult where
  | created (echoed : models.Product) : CreateResult
  | storageError : CreateResult
deriving Repr, DecidableEq

/-- Handler `add_product` (`main.py`, lines 168-181).  The route pattern
declares a path parameter, but the handler signature never binds it, so
`pathId` is not read anywhere: only the body's id is persisted.  The
insert fails (uncaught, transaction not committed, table unchanged)
exactly when a row with the body's id already exists, mirroring the
primary-key constraint of `db_models.py` line 50. -/
def add_product (_pathId : Int) (product : models.Product) (t : Table) :
    CreateResult × Table :=
  if t.any (fun r => r.id == product.id) then (.storageError, t)
  else (.created product, t ++ [rowOfProduct product])

/-- Replacement performed on the found row by `update_product`
(`main.py`, lines 201-204): `name`, `description`, `price` and
`quantity` are overwritten from the payload; the `id` column is never
assigned. -/
def updateRow (p : models.Product) (r : db_models.Product) : db_models.Product :=
  { r with name := p.name, description := p.description,
           price := p.price, quantity := p.quantity }

/-- In-place mutation of the first row whose `id` column equals `id`,
as performed through the ORM object returned by `first()`. -/
def setFirstById (t : Table) (id : Int) (f : db_models.Product → db_models.Product) : Table :=
  match t with
  | [] => []
  | r :: rs => if r.id == id then f r :: rs else r :: setFirstById rs id f

/-- Handler `update_product` (`main.py`, lines 186-208): on a hit,
overwrite the four non-key fields of the found row and return the
literal success string naming the path id and the payload name; on a
miss, return the literal no-product string and leave the table as is. -/
def update_product (id : Int) (product : models.Product) (t : Table) :
    String × Table :=
  match firstById t id with
  | some _ =>
      ("Information for product id: " ++ toString id ++ " and name: " ++
        product.name ++ " updated",
       setFirstById t id (updateRow product))
  | none => ("No product with id " ++ toString id ++ " found", t)

/-- Removal of the first row whose `id` column equals `id`, as performed
by `db.delete(db_product)` on the object returned by `first()`. -/
def eraseFirstById (t : Table) (id : Int) : Table :=
  match t with
  | [] => []
  | r :: rs => if r.id == id then rs else r :: eraseFirstById rs id

/-- Handler `delete_product_from_id` (`main.py`, lines 213-230): on a
hit, remove the found row and return the literal success string naming
the id; on a miss, return the literal not-found string (which also
names the id) and leave the table as is. -/
def delete_product_from_id (id : Int) (t : Table) : String × Table :=
  match firstById t id with
  | some _ =>
      ("Product with id " ++ toString id ++ " deleted successfully.",
       eraseFirstById t id)
  | none =>
      ("Product Not found, please check the " ++ toString id ++ " again", t)

/-! ## Helper lemmas, shared across the claim theorems -/

/-- Mutating the first row matching `id` through a function that keeps
the `id` column commutes with the by-id lookup. -/
lemma firstById_setFirstById (t : Table) (id : Int)
    (f : db_models.Product → db_models.Product) (hf : ∀ r, (f r).id = r.id) :
    firstById (setFirstById t id f) id = (firstById t id).map f := by
  induction t with
  | nil => rfl
  | cons r rs ih =>
    by_cases h : (r.id == id) = true
    · have hfr : ((f r).id == id) = true := by rw [hf]; exact h
      rw [setFirstById, if_pos h, firstById, if_pos hfr, firstById, if_pos h,
          Option.map_some']
    · rw [setFirstById, if_neg h, firstById, if_neg h, firstById, if_neg h]
      exact ih

/-- Looking up an id absent from the id column finds nothing. -/
lemma firstById_eq_none_of_not_mem (t : Table) (id : Int)
    (h : id ∉ t.map db_models.Product.id) : firstById t id = none := by
  induction t with
  | nil => rfl
  | cons r rs ih =>
    rw [List.map_cons, List.mem_cons, not_or] at h
    have hr : (r.id == id) = false := by
      simp only [beq_eq_false_iff_ne, ne_eq]
      exact fun hrid => h.1 hrid.symm
    rw [firstById, if_neg (by simp [hr]), ih h.2]

/-- Over a table whose id column holds no duplicate, removing the first
row matching `id` leaves no row matching `id`. -/
lemma firstById_eraseFirstById (t : Table) (id : Int)
    (hnd : (t.map db_models.Product.id).Nodup) :
    firstById (eraseFirstById t id) id = none := by
  induction t with
  | nil => rfl
  | cons r rs ih =>
    rw [List.map_cons, List.nodup_cons] at hnd
    by_cases h : (r.id == id) = true
    · rw [eraseFirstById, if_pos h]
      exact firstById_eq_none_of_not_mem rs id ((beq_iff_eq.mp h) ▸ hnd.1)
    · rw [eraseFirstById, if_neg h, firstById, if_neg h]
      exact ih hnd.2

/-- Mutating the first row matching `k` through an id-preserving
function does not change the sublist of rows matching a different id. -/
lemma filter_setFirstById (t : Table) (k j : Int)
    (f : db_models.Product → db_models.Product) (hf : ∀ r, (f r).id = r.id)
    (hne : j ≠ k) :
    (setFirstById t k f).filter (fun r => r.id == j) =
      t.filter (fun r => r.id == j) := by
  induction t with
  | nil => rfl
  | cons r rs ih =>
    by_cases h : (r.id == k) = true
    · have hrk : r.id = k := beq_iff_eq.mp h
      have h1 : ((f r).id == j) = false := by
        simp [hf, hrk, (Ne.symm hne)]
      have h2 : (r.id == j) = false := by simp [hrk, (Ne.symm hne)]
      rw [setFirstById, if_pos h]
      simp [List.filter_cons, h1, h2]
    · rw [setFirstById, if_neg h]
      simp only [List.filter_cons, ih]

/-- Every row found by the by-id lookup carries the requested id. -/
lemma firstById_id_eq (t : Table) (id : Int) (r : db_models.Product)
    (h : firstById t id = some r) : r.id = id := by
  induction t with
  | nil => cases h
  | cons x xs ih =>
    rw [firstById] at h
    by_cases hx : (x.id == id) = true
    · rw [if_pos hx] at h
      obtain rfl : x = r := Option.some.inj h
      exact beq_iff_eq.mp hx
    · rw [if_neg hx] at h
      exact ih h

/-! ## Claim theorems -/

/-- C1: the startup seeding routine inserts exactly the three fixed
sample rows (ids 1, 4, 3 in insertion order, i.e. the id set
consisting of 1, 3 and 4) when the table is empty, and makes no change
to a table that already holds at least one row, whatever the failure
oracle says. -/
theorem c1_init_db_seeds_iff_empty (f : Bool) (t : Table) :
    (init_db false []).table = sample_products ∧
    sample_products.map db_models.Product.id = [1, 4, 3] ∧
    (t ≠ [] → (init_db f t).table = t) := by
  refine ⟨rfl, rfl, fun ht => ?_⟩
  have hlen : 0 < t.length := List.length_pos.mpr ht
  cases f
  · simp [init_db, initDbBody, hlen]
  · rfl

/-- Witness for C1 at a concrete non-empty table. -/
theorem c1_init_db_seeds_iff_empty_w :
    (init_db true [⟨9, "x", "y", (1 : Rat), 1⟩]).table =
      [⟨9, "x", "y", (1 : Rat), 1⟩] :=
  (c1_init_db_seeds_iff_empty true [⟨9, "x", "y", (1 : Rat), 1⟩]).2.2 (by decide)

/-- C2: get-by-id returns the stored row when a row with the requested
id exists and otherwise the literal not-found string containing the
requested id; on the seeded table, id 1 yields the "phone" row with
price 54000.3 and quantity 15, and id 999 yields the not-found string
containing "999". -/
theorem c2_get_product_by_id_spec (id : Int) (t : Table) :
    (∀ p, firstById t id = some p → get_product_by_id id t = (.found p, t)) ∧
    (firstById t id = none →
      ∃ a b, get_product_by_id id t = (.notFound (a ++ toString id ++ b), t)) ∧
    (get_product_by_id 1 seededTable).1 =
      .found ⟨1, "phone", "samsung", (54000.3 : Rat), 15⟩ ∧
    (∃ a b, (get_product_by_id 999 seededTable).1 =
      .notFound (a ++ "999" ++ b)) := by
  refine ⟨fun p hp => ?_, fun h => ?_, rfl, ?_⟩
  · simp only [get_product_by_id, hp]
  · exact ⟨"Product with id ",
      " not found, please verify the id, or try by name.",
      by simp only [get_product_by_id, h]⟩
  · exact ⟨"Product with id ",
      " not found, please verify the id, or try by name.", rfl⟩

/-- Witness for C2 at a concrete hit. -/
theorem c2_get_product_by_id_spec_w :
    get_product_by_id 3 seededTable =
      (.found ⟨3, "Charger", "Mobile Charger", (52 : Rat), 32⟩, seededTable) :=
  (c2_get_product_by_id_spec 3 seededTable).1
    ⟨3, "Charger", "Mobile Charger", (52 : Rat), 32⟩ rfl

/-- C3: create persists exactly the row built field-by-field from the
request body and echoes the body unchanged; the path id is never read,
so any two path ids give the identical response and resulting state. -/
theorem c3_add_product_spec (p1 p2 : Int) (b : models.Product) (t : Table) :
    add_product p1 b t = add_product p2 b t ∧
    ((t.any fun r => r.id == b.id) = false →
      add_product p1 b t = (.created b, t ++ [rowOfProduct b]) ∧
      rowOfProduct b = ⟨b.id, b.name, b.description, b.price, b.quantity⟩) := by
  refine ⟨rfl, fun h => ⟨?_, rfl⟩⟩
  rw [add_product, if_neg (by simp [h])]

/-- Witness for C3 at a concrete body and empty table. -/
theorem c3_add_product_spec_w :
    add_product 5 ⟨2, "Mouse", "wireless", (20.0 : Rat), 100⟩ [] =
      (.created ⟨2, "Mouse", "wireless", (20.0 : Rat), 100⟩,
       [⟨2, "Mouse", "wireless", (20.0 : Rat), 100⟩]) :=
  ((c3_add_product_spec 5 9 ⟨2, "Mouse", "wireless", (20.0 : Rat), 100⟩ []).2
    rfl).1

/-- C4: creating a second Product with an id already stored fails with
the uncaught storage error: the table, hence every existing row, is
unchanged, and the outcome is the propagated storage error, not any
user-facing string. -/
theorem c4_duplicate_insert_fails (pid : Int) (b : models.Product) (t : Table)
    (h : (t.any fun r => r.id == b.id) = true) :
    add_product pid b t = (.storageError, t) := by
  rw [add_product, if_pos h]

/-- Witness for C4: re-inserting id 2 over a table holding id 2. -/
theorem c4_duplicate_insert_fails_w :
    add_product 2 ⟨2, "Mouse", "copy", (1 : Rat), 1⟩
      [⟨2, "Mouse", "wireless", (20.0 : Rat), 100⟩] =
      (.storageError, [⟨2, "Mouse", "wireless", (20.0 : Rat), 100⟩]) :=
  c4_duplicate_insert_fails 2 ⟨2, "Mouse", "copy", (1 : Rat), 1⟩
    [⟨2, "Mouse", "wireless", (20.0 : Rat), 100⟩] rfl

/-- C5: update of an existing id returns the literal success string
containing the path id and the payload name, and a subsequent get-by-id
of that id returns a row carrying the new field values; update of a
missing id returns the literal no-product string naming the id and
leaves the table unchanged. -/
theorem c5_update_product_spec (id : Int) (p : models.Product) (t : Table) :
    ((firstById t id).isSome = true →
      (∃ a m b, (update_product id p t).1 = a ++ toString id ++ m ++ p.name ++ b) ∧
      (∃ r, (get_product_by_id id (update_product id p t).2).1 = .found r ∧
        r.name = p.name ∧ r.description = p.description ∧
        r.price = p.price ∧ r.quantity = p.quantity)) ∧
    (firstById t id = none →
      update_product id p t = ("No product with id " ++ toString id ++ " found", t)) := by
  constructor
  · intro hs
    rcases Option.isSome_iff_exists.mp hs with ⟨r0, hr0⟩
    have h2 : (update_product id p t).2 = setFirstById t id (updateRow p) := by
      simp only [update_product, hr0]
    refine ⟨⟨"Information for product id: ", " and name: ", " updated",
        by simp only [update_product, hr0]⟩, updateRow p r0, ?_, rfl, rfl, rfl, rfl⟩
    have hfind : firstById (setFirstById t id (updateRow p)) id =
        some (updateRow p r0) := by
      rw [firstById_setFirstById t id (updateRow p) (fun r => rfl), hr0,
          Option.map_some']
    rw [h2]
    simp only [get_product_by_id, hfind]
  · intro hn
    simp only [update_product, hn]

/-- Witness for C5: renaming the seeded row 1 to "Phone Pro". -/
theorem c5_update_product_spec_w :
    ∃ a m b,
      (update_product 1 ⟨1, "Phone Pro", "samsung", (54000.3 : Rat), 15⟩
        seededTable).1 = a ++ toString (1 : Int) ++ m ++ "Phone Pro" ++ b :=
  ((c5_update_product_spec 1 ⟨1, "Phone Pro", "samsung", (54000.3 : Rat), 15⟩
    seededTable).1 rfl).1

/-- C6 counterexample: updating path id 1 with a payload whose id field
is 2 keeps the stored primary key at 1, so the resulting table is not
the one the claim predicts (the payload row with id 2): the update is
not a full replace of the id field. -/
theorem c6_counterexample :
    ((update_product 1 ⟨2, "X", "Y", (1 : Rat), 1⟩
        [⟨1, "A", "B", (2 : Rat), 3⟩]).2.map db_models.Product.id) = [1] ∧
    (update_product 1 ⟨2, "X", "Y", (1 : Rat), 1⟩
        [⟨1, "A", "B", (2 : Rat), 3⟩]).2 ≠
      [rowOfProduct ⟨2, "X", "Y", (1 : Rat), 1⟩] := by
  refine ⟨rfl, fun hcontra => ?_⟩
  have h1 : ((update_product 1 ⟨2, "X", "Y", (1 : Rat), 1⟩
      [⟨1, "A", "B", (2 : Rat), 3⟩]).2.map db_models.Product.id) = [1] := rfl
  rw [hcontra] at h1
  have h2 : ([rowOfProduct ⟨2, "X", "Y", (1 : Rat), 1⟩].map
      db_models.Product.id) = [2] := rfl
  rw [h2] at h1
  exact absurd h1 (by decide)

/-- C6 (amended): a successful update is a full replace of the four
non-key fields name, description, price and quantity; the stored id
column is never assigned and keeps its previous value. -/
theorem c6_update_full_replace_except_id (id : Int) (p : models.Product)
    (t : Table) (r0 : db_models.Product) (h : firstById t id = some r0) :
    firstById (update_product id p t).2 id =
      some ⟨r0.id, p.name, p.description, p.price, p.quantity⟩ := by
  have h2 : (update_product id p t).2 = setFirstById t id (updateRow p) := by
    simp only [update_product, h]
  rw [h2, firstById_setFirstById t id (updateRow p) (fun r => rfl), h,
      Option.map_some']
  rfl

/-- Witness for the amended C6 on the seeded row 3. -/
theorem c6_update_full_replace_except_id_w :
    firstById (update_product 3 ⟨7, "C2", "D2", (9 : Rat), 9⟩ seededTable).2 3 =
      some ⟨3, "C2", "D2", (9 : Rat), 9⟩ :=
  c6_update_full_replace_except_id 3 ⟨7, "C2", "D2", (9 : Rat), 9⟩ seededTable
    ⟨3, "Charger", "Mobile Charger", (52 : Rat), 32⟩ rfl

/-- C7: over a table whose primary keys are distinct, delete of an
existing id removes the row (a subsequent lookup finds nothing) and
returns the literal success string containing the id; delete of a
missing id returns the literal not-found string and leaves the table
unchanged; hence a second delete of the same id returns the not-found
string and leaves the state fixed. -/
theorem c7_delete_product_spec (id : Int) (t : Table)
    (hnd : (t.map db_models.Product.id).Nodup) :
    ((firstById t id).isSome = true →
      (∃ a b, (delete_product_from_id id t).1 = a ++ toString id ++ b) ∧
      firstById (delete_product_from_id id t).2 id = none ∧
      delete_product_from_id id (delete_product_from_id id t).2 =
        ("Product Not found, please check the " ++ toString id ++ " again",
         (delete_product_from_id id t).2)) ∧
    (firstById t id = none →
      delete_product_from_id id t =
        ("Product Not found, please check the " ++ toString id ++ " again", t)) := by
  constructor
  · intro hs
    rcases Option.isSome_iff_exists.mp hs with ⟨r0, hr0⟩
    have h2 : (delete_product_from_id id t).2 = eraseFirstById t id := by
      simp only [delete_product_from_id, hr0]
    have hnone : firstById (eraseFirstById t id) id = none :=
      firstById_eraseFirstById t id hnd
    refine ⟨⟨"Product with id ", " deleted successfully.",
        by simp only [delete_product_from_id, hr0]⟩, ?_, ?_⟩
    · rw [h2]; exact hnone
    · rw [h2]
      simp only [delete_product_from_id, hnone]
  · intro hn
    simp only [delete_product_from_id, hn]

/-- Witness for C7: the second delete of id 4 on the seeded table. -/
theorem c7_delete_product_spec_w :
    delete_product_from_id 4 (delete_product_from_id 4 seededTable).2 =
      ("Product Not found, please check the " ++ toString (4 : Int) ++ " again",
       (delete_product_from_id 4 seededTable).2) :=
  ((c7_delete_product_spec 4 seededTable (by decide)).1 rfl).2.2

/-- C8: the startup seeding routine releases its session and propagates
no exception on every path, and on a storage failure it leaves the
table exactly as it was (rollback). -/
theorem c8_init_db_atomic (f : Bool) (t : Table) :
    (init_db f t).sessionClosed = true ∧
    (init_db f t).propagated = false ∧
    (f = true → (init_db f t).table = t) := by
  refine ⟨?_, ?_, fun hf => ?_⟩
  · rcases he : initDbBody f t with e | t2 <;> simp [init_db, he]
  · rcases he : initDbBody f t with e | t2 <;> simp [init_db, he]
  · subst hf
    rfl

/-- Witness for C8: a failing run against the sample table. -/
theorem c8_init_db_atomic_w :
    (init_db true sample_products).table = sample_products :=
  (c8_init_db_atomic true sample_products).2.2 rfl

/-- C9: update ignores the payload id: when the path id k matches a
stored row and the payload id differs from k, the found row keeps
primary key k while the other four fields are overwritten, and the
sublist of rows carrying the payload id is exactly what it was before
the update. -/
theorem c9_update_ignores_payload_id (k : Int) (p : models.Product) (t : Table)
    (r0 : db_models.Product) (hfind : firstById t k = some r0)
    (hne : p.id ≠ k) :
    r0.id = k ∧
    firstById (update_product k p t).2 k =
      some ⟨r0.id, p.name, p.description, p.price, p.quantity⟩ ∧
    (update_product k p t).2.filter (fun r => r.id == p.id) =
      t.filter (fun r => r.id == p.id) := by
  have h2 : (update_product k p t).2 = setFirstById t k (updateRow p) := by
    simp only [update_product, hfind]
  refine ⟨firstById_id_eq t k r0 hfind, ?_, ?_⟩
  · rw [h2, firstById_setFirstById t k (updateRow p) (fun r => rfl), hfind,
        Option.map_some']
    rfl
  · rw [h2]
    exact filter_setFirstById t k p.id (updateRow p) (fun r => rfl) hne

/-- Witness for C9: payload id 5 against path id 1 on the seeded table. -/
theorem c9_update_ignores_payload_id_w :
    (⟨1, "phone", "samsung", (54000.3 : Rat), 15⟩ : db_models.Product).id = 1 ∧
    firstById (update_product 1 ⟨5, "N", "D", (7 : Rat), 8⟩ seededTable).2 1 =
      some ⟨1, "N", "D", (7 : Rat), 8⟩ ∧
    (update_product 1 ⟨5, "N", "D", (7 : Rat), 8⟩ seededTable).2.filter
        (fun r => r.id == (5 : Int)) =
      seededTable.filter (fun r => r.id == (5 : Int)) :=
  c9_update_ignores_payload_id 1 ⟨5, "N", "D", (7 : Rat), 8⟩ seededTable
    ⟨1, "phone", "samsung", (54000.3 : Rat), 15⟩ rfl (by decide)

/-- C10: the two read handlers return the table unchanged for every
state and every requested id, whether or not the lookup finds a row. -/
theorem c10_reads_do_not_modify (id : Int) (t : Table) :
    (get_all_products t).2 = t ∧ (get_product_by_id id t).2 = t := by
  refine ⟨rfl, ?_⟩
  rcases h : firstById t id with _ | p <;> simp [get_product_by_id, h]
